import Mathlib

/-!
Shallow embedding of `modules/statistics/AvgRTPStatsReporter.js`.

JavaScript numbers are modelled as `JSNum`: NaN, the two infinities, or an
exact rational (finite doubles are idealised as exact rationals, so that
"arithmetic mean" is meaningful; NaN/infinity propagation follows IEEE/JS
semantics for the operations the source uses).  Arbitrary JS values fed to
`addNext` are modelled as `JSVal`, whose `typeof v === 'number'` test is
`JSVal.isNumber`.  Stateful classes become structures, event handlers become
state-transition functions returning the new state together with the list of
analytics events sent via `Statistics.analytics.sendEvent`.
-/

/-- A JavaScript number: NaN, +Infinity, -Infinity, or finite. -/
inductive JSNum where
  | nan : JSNum
  | inf : JSNum
  | ninf : JSNum
  | fin : ℚ → JSNum
deriving DecidableEq, Repr

/-- `isNaN(x)` for a JS number. -/
def JSNum.isNaN : JSNum → Bool
  | .nan => true
  | _ => false

/-- JS `+` on numbers (IEEE semantics on the cases the source reaches). -/
def JSNum.add : JSNum → JSNum → JSNum
  | .nan, _ => .nan
  | _, .nan => .nan
  | .inf, .ninf => .nan
  | .ninf, .inf => .nan
  | .inf, _ => .inf
  | _, .inf => .inf
  | .ninf, _ => .ninf
  | _, .ninf => .ninf
  | .fin a, .fin b => .fin (a + b)

/-- JS division of a number by a nonnegative integer count (`sum / count`):
`0 / 0 = NaN`, positive `/ 0 = Infinity`, negative `/ 0 = -Infinity`. -/
def JSNum.divNat : JSNum → ℕ → JSNum
  | .nan, _ => .nan
  | .inf, _ => .inf
  | .ninf, _ => .ninf
  | .fin q, 0 => if 0 < q then .inf else if q < 0 then .ninf else .nan
  | .fin q, (k + 1) => .fin (q / ((k : ℚ) + 1))

/-- An arbitrary JavaScript value handed to `addNext`. -/
inductive JSVal where
  | num : JSNum → JSVal
  | undef : JSVal
  | null : JSVal
  | str : String → JSVal
  | bool : Bool → JSVal
deriving DecidableEq, Repr

/-- `typeof v === 'number'`. -/
def JSVal.isNumber : JSVal → Bool
  | .num _ => true
  | _ => false

/-- One event sent to the analytics sink: the (possibly prefixed) event name
and the numeric value carried by the payload. -/
structure AnalyticsEvent where
  name : String
  value : JSNum
deriving DecidableEq, Repr

/-- `AverageStatReport`: a named running average with a sample count and sum. -/
structure AverageStatReport where
  name : String
  count : ℕ
  sum : JSNum
deriving DecidableEq, Repr

/-- The constructor `new AverageStatReport(name)`. -/
def AverageStatReport.mk0 (name : String) : AverageStatReport :=
  { name := name, count := 0, sum := .fin 0 }

/-- `addNext(nextValue)`: a non-number is logged and ignored; a number is
added to `sum` and `count` is incremented. -/
def AverageStatReport.addNext (a : AverageStatReport) (nextValue : JSVal) :
    AverageStatReport :=
  match nextValue with
  | .num x => { a with sum := a.sum.add x, count := a.count + 1 }
  | _ => a

/-- The diagnostic log produced by `addNext` (an error line exactly when the
value fails the `typeof` check). -/
def AverageStatReport.addNextLog (a : AverageStatReport) (nextValue : JSVal) :
    List String :=
  match nextValue with
  | .num _ => []
  | _ => [a.name ++ " - invalid value for idx: " ++ toString a.count]

/-- `calculate()`: `sum / count`. -/
def AverageStatReport.calculate (a : AverageStatReport) : JSNum :=
  a.sum.divNat a.count

/-- `report(isP2P)`: sends one event, name prefixed with `p2p.` in P2P mode. -/
def AverageStatReport.report (a : AverageStatReport) (isP2P : Bool) :
    AnalyticsEvent :=
  { name := (if isP2P then "p2p." else "") ++ a.name, value := a.calculate }

/-- `reset()`: zeroes `sum` and `count`. -/
def AverageStatReport.reset (a : AverageStatReport) : AverageStatReport :=
  { a with sum := .fin 0, count := 0 }

/-- Feeding a whole sequence of values through `addNext`, first to last. -/
def AverageStatReport.feedAll (a : AverageStatReport) (vs : List JSVal) :
    AverageStatReport :=
  vs.foldl AverageStatReport.addNext a

/-- Payload of a per-mode connection-stats sample: `transport` is the ordered
ICE candidate-pair list, each entry reduced to its `rtt` field (an absent
`transport` behaves exactly like an empty one in the source's
`data.transport && data.transport.length` test, so it is modelled as `[]`). -/
structure ConnStatsData where
  transport : List JSVal
deriving DecidableEq, Repr

/-- Payload of a remote-stats update: the `jvbRTT` field (possibly absent or
non-numeric, hence a `JSVal`). -/
structure RemoteStatsData where
  jvbRTT : JSVal
deriving DecidableEq, Repr

/-- `ConnectionAvgStats`: per-mode RTT aggregator.  `avgRemoteRTTMap` models
the JS `Map` as an insertion-ordered association list with unique keys. -/
structure ConnectionAvgStats where
  isP2P : Bool
  n : ℤ
  sampleIdx : ℕ
  avgRTT : AverageStatReport
  avgRemoteRTTMap : List (String × AverageStatReport)
deriving DecidableEq, Repr

/-- `Map.get(id)` on the modelled map. -/
def mapGet (m : List (String × AverageStatReport)) (id : String) :
    Option AverageStatReport :=
  (m.find? (fun e => e.1 == id)).map (fun e => e.2)

/-- The constructor `new ConnectionAvgStats(conference, isP2P, n)`. -/
def ConnectionAvgStats.mk0 (isP2P : Bool) (n : ℤ) : ConnectionAvgStats :=
  { isP2P := isP2P, n := n, sampleIdx := 0,
    avgRTT := AverageStatReport.mk0 "stat.avg.rtt", avgRemoteRTTMap := [] }

/-- Lines 169-175 of `_calculateAvgStats`: feed the first transport entry's
rtt into `_avgRTT`, or reset `_avgRTT` when the transport list is empty;
nothing happens when RTT statistics are unsupported. -/
def ConnectionAvgStats.accumRTT (supportsRTT : Bool) (c : ConnectionAvgStats)
    (d : ConnStatsData) : ConnectionAvgStats :=
  if supportsRTT then
    match d.transport with
    | r :: _ => { c with avgRTT := c.avgRTT.addNext r }
    | [] => { c with avgRTT := c.avgRTT.reset }
  else c

/-- The loop of `_calculateAvgRemoteRTT`: running `sum` and `count` over the
entries whose average is not NaN, in map insertion order. -/
def remoteRTTScan : List (String × AverageStatReport) → JSNum → ℕ → JSNum × ℕ
  | [], s, c => (s, c)
  | e :: rest, s, c =>
    if (e.2.calculate).isNaN then remoteRTTScan rest s c
    else remoteRTTScan rest (s.add e.2.calculate) (c + 1)

/-- The value returned by `_calculateAvgRemoteRTT` (sum over count). -/
def ConnectionAvgStats.calculateAvgRemoteRTTval
    (m : List (String × AverageStatReport)) : JSNum :=
  (remoteRTTScan m (.fin 0) 0).1.divNat (remoteRTTScan m (.fin 0) 0).2

/-- The side effect of `_calculateAvgRemoteRTT`: every contributing (non-NaN)
entry is reset as it is folded in. -/
def ConnectionAvgStats.remoteRTTMapAfter
    (m : List (String × AverageStatReport)) :
    List (String × AverageStatReport) :=
  m.map (fun e => if (e.2.calculate).isNaN then e else (e.1, e.2.reset))

/-- `_resetAvgStats()`: reset `_avgRTT`, clear the map, zero `_sampleIdx`. -/
def ConnectionAvgStats.resetAvgStats (c : ConnectionAvgStats) :
    ConnectionAvgStats :=
  { c with avgRTT := c.avgRTT.reset, avgRemoteRTTMap := [], sampleIdx := 0 }

/-- `ConnectionAvgStats._calculateAvgStats(data)`: one tagged sample.
Returns the new state and the analytics events sent. -/
def ConnectionAvgStats.calculateAvgStats (supportsRTT : Bool)
    (c : ConnectionAvgStats) (data : Option ConnStatsData) :
    ConnectionAvgStats × List AnalyticsEvent :=
  match data with
  | none => (c, [])
  | some d =>
    let c1 := c.accumRTT supportsRTT d
    let c2 := { c1 with sampleIdx := c1.sampleIdx + 1 }
    if c2.n ≤ (c2.sampleIdx : ℤ) then
      if supportsRTT then
        let rttEv := c2.avgRTT.report c2.isP2P
        if c2.isP2P then
          (c2.resetAvgStats, [rttEv])
        else
          let avgRemoteRTT :=
            ConnectionAvgStats.calculateAvgRemoteRTTval c2.avgRemoteRTTMap
          let c3 := { c2 with
            avgRemoteRTTMap :=
              ConnectionAvgStats.remoteRTTMapAfter c2.avgRemoteRTTMap }
          let avgLocalRTT := c3.avgRTT.calculate
          if avgLocalRTT.isNaN = false ∧ avgRemoteRTT.isNaN = false then
            (c3.resetAvgStats,
              [rttEv,
                ⟨"stat.avg.end2endrtt", avgLocalRTT.add avgRemoteRTT⟩])
          else
            (c3.resetAvgStats, [rttEv])
      else (c2.resetAvgStats, [])
    else (c2, [])

/-- `_processRemoteStats(id, data)`. -/
def ConnectionAvgStats.processRemoteStats (c : ConnectionAvgStats)
    (id : String) (data : RemoteStatsData) : ConnectionAvgStats :=
  match mapGet c.avgRemoteRTTMap id, data.jvbRTT.isNumber with
  | some _, true =>
      let m := c.avgRemoteRTTMap.map
        (fun e => if e.1 == id then (e.1, e.2.addNext data.jvbRTT) else e)
      { c with avgRemoteRTTMap := m }
  | none, true =>
      let fresh := (AverageStatReport.mk0 (id ++ ".stat.rtt")).addNext
        data.jvbRTT
      { c with avgRemoteRTTMap := c.avgRemoteRTTMap ++ [(id, fresh)] }
  | some _, false =>
      { c with avgRemoteRTTMap := c.avgRemoteRTTMap.filter (fun e => !(e.1 == id)) }
  | none, false => c

/-- `_onUserLeft`: `this._avgRemoteRTTMap.delete(id)`. -/
def ConnectionAvgStats.onUserLeft (c : ConnectionAvgStats) (id : String) :
    ConnectionAvgStats :=
  { c with avgRemoteRTTMap := c.avgRemoteRTTMap.filter (fun e => !(e.1 == id)) }

/-- Concrete relayed-mode state used to witness C5: window size 1, local RTT
average about to become 50, participants reporting averages 40 and 60. -/
def cStatsEx5 : ConnectionAvgStats :=
  { isP2P := false, n := 1, sampleIdx := 0,
    avgRTT := AverageStatReport.mk0 "stat.avg.rtt",
    avgRemoteRTTMap :=
      [("alice", AverageStatReport.mk "alice.stat.rtt" 1 (.fin 40)),
       ("bob", AverageStatReport.mk "bob.stat.rtt" 1 (.fin 60))] }

/-- Concrete sample whose first transport entry carries rtt 50. -/
def dStatsEx5 : ConnStatsData := { transport := [JSVal.num (JSNum.fin 50)] }

/-- Concrete direct-mode state used to witness the second half of C5. -/
def cStatsEx5p2p : ConnectionAvgStats :=
  { isP2P := true, n := 1, sampleIdx := 0,
    avgRTT := AverageStatReport.mk0 "stat.avg.rtt", avgRemoteRTTMap := [] }

/-- Concrete relayed-mode state used to witness C8. -/
def cStatsEx8 : ConnectionAvgStats :=
  { isP2P := false, n := 2, sampleIdx := 1,
    avgRTT := AverageStatReport.mk "stat.avg.rtt" 1 (.fin 50),
    avgRemoteRTTMap :=
      [("alice", AverageStatReport.mk "alice.stat.rtt" 1 (.fin 40)),
       ("bob", AverageStatReport.mk "bob.stat.rtt" 1 (.fin 60))] }

/-- Feeding finite numeric values accumulates the exact count and sum. -/
theorem AverageStatReport.feedAll_fin (nm : String) (c : ℕ) (s : ℚ)
    (xs : List ℚ) :
    AverageStatReport.feedAll ⟨nm, c, .fin s⟩
        (xs.map (fun q => JSVal.num (JSNum.fin q)))
      = ⟨nm, c + xs.length, .fin (s + xs.sum)⟩ := by
  induction xs generalizing c s with
  | nil => simp [AverageStatReport.feedAll]
  | cons x xs ih =>
      simp only [List.map_cons, AverageStatReport.feedAll, List.foldl_cons,
        AverageStatReport.addNext, JSNum.add] at *
      rw [ih]
      simp only [List.length_cons, List.sum_cons, AverageStatReport.mk.injEq,
        JSNum.fin.injEq, and_true, true_and]
      constructor
      · omega
      · ring

/-- C4 — For every finite sequence of (finite) numeric values fed via
`addNext` to a freshly constructed `AverageStatReport`, `calculate()` returns
the arithmetic mean of the sequence; for the empty sequence it returns NaN. -/
theorem C4_calculate_is_mean (nm : String) (xs : List ℚ) :
    (AverageStatReport.feedAll (AverageStatReport.mk0 nm)
        (xs.map (fun q => JSVal.num (JSNum.fin q)))).calculate
      = if xs = [] then JSNum.nan
        else JSNum.fin (xs.sum / (xs.length : ℚ)) := by
  rw [AverageStatReport.mk0, AverageStatReport.feedAll_fin]
  cases xs with
  | nil => simp [AverageStatReport.calculate, JSNum.divNat]
  | cons x xs =>
      simp only [List.length_cons, List.sum_cons, if_neg (List.cons_ne_nil x xs)]
      simp [AverageStatReport.calculate, JSNum.divNat]

/-- C7 — `addNext` of a non-numeric value changes neither `count` nor `sum`
(the instance is not mutated at all), and an error line is logged. -/
theorem C7_addNext_non_number (a : AverageStatReport) (v : JSVal)
    (hv : v.isNumber = false) :
    a.addNext v = a ∧ (a.addNextLog v).length = 1 := by
  cases v <;> simp_all [JSVal.isNumber, AverageStatReport.addNext,
    AverageStatReport.addNextLog]

/-- Witness for C7 at a concrete instance and the value `undefined`. -/
theorem C7_addNext_non_number_witness :
    (JSVal.undef.isNumber = false) ∧
      ((AverageStatReport.mk "stat.avg.rtt" 2 (.fin 7)).addNext .undef
          = AverageStatReport.mk "stat.avg.rtt" 2 (.fin 7) ∧
        ((AverageStatReport.mk "stat.avg.rtt" 2 (.fin 7)).addNextLog
            .undef).length = 1) :=
  ⟨by decide,
    C7_addNext_non_number (AverageStatReport.mk "stat.avg.rtt" 2 (.fin 7))
      .undef (by decide)⟩

/-- A sum that is already NaN stays NaN through any further `addNext`s. -/
theorem AverageStatReport.feedAll_nan_sum (a : AverageStatReport)
    (ha : a.sum = .nan) (vs : List JSVal) :
    (a.feedAll vs).sum = .nan := by
  induction vs generalizing a with
  | nil => simpa [AverageStatReport.feedAll]
  | cons v vs ih =>
      simp only [AverageStatReport.feedAll, List.foldl_cons]
      cases v with
      | num x =>
          exact ih _ (by simp [AverageStatReport.addNext, ha, JSNum.add])
      | undef => exact ih _ (by simpa [AverageStatReport.addNext])
      | null => exact ih _ (by simpa [AverageStatReport.addNext])
      | str s => exact ih _ (by simpa [AverageStatReport.addNext])
      | bool b => exact ih _ (by simpa [AverageStatReport.addNext])

/-- C9 — `addNext` accepts non-finite numeric values: `addNext(NaN)` (and of
an infinity) passes the `typeof` check, increments `count` and folds the value
into `sum`; once NaN has been fed, every later `calculate()` in the window is
NaN no matter what is fed afterwards, even though samples were counted. -/
theorem C9_addNext_accepts_non_finite (a : AverageStatReport)
    (vs : List JSVal) :
    (a.addNext (.num .nan)).count = a.count + 1 ∧
      (a.addNext (.num .nan)).sum = .nan ∧
      (a.addNext (.num .inf)).count = a.count + 1 ∧
      ((a.addNext (.num .nan)).feedAll vs).calculate = .nan := by
  refine ⟨rfl, ?_, rfl, ?_⟩
  · cases h : a.sum <;> simp [AverageStatReport.addNext, JSNum.add, h]
  · have hsum : ((a.addNext (.num .nan)).feedAll vs).sum = .nan := by
      apply AverageStatReport.feedAll_nan_sum
      cases h : a.sum <;> simp [AverageStatReport.addNext, JSNum.add, h]
    simp [AverageStatReport.calculate, hsum, JSNum.divNat]

/-- A pair of `upload`/`download` figures (used for `bitrate`/`bandwidth`). -/
structure UpDownData where
  upload : JSVal
  download : JSVal
deriving DecidableEq, Repr

/-- The `packetLoss` object of a local sample. -/
structure PacketLossData where
  upload : JSVal
  download : JSVal
  total : JSVal
deriving DecidableEq, Repr

/-- A LOCAL_STATS_UPDATED payload.  A missing top-level field is `none`
(matching the source's falsiness checks).  `framerate` maps participant id
to a map from ssrc to the frame rate; each leaf carries the JS number that
`parseInt(videos[ssrc], 10)` produces for that entry. -/
structure LocalStatsData where
  bitrate : Option UpDownData
  bandwidth : Option UpDownData
  packetLoss : Option PacketLossData
  framerate : Option (List (String × List (String × JSNum)))
  connectionQuality : JSVal
deriving DecidableEq, Repr

/-- The conference/browser context read inside `_calculateAvgStats`. -/
structure StatsContext where
  supportsBandwidthStatistics : Bool
  isP2P : Bool
  peerCount : ℕ
  myID : String
deriving DecidableEq, Repr

/-- `_calculateAvgVideoFps(frameRate, isLocal)`: per selected participant,
average the (parsed) per-ssrc rates; then average those per-participant
averages; `0 / 0 = NaN` when nobody qualifies. -/
def calculateAvgVideoFps (myID : String)
    (frameRate : List (String × List (String × JSNum))) (isLocal : Bool) :
    JSNum :=
  let folded := frameRate.foldl
    (fun (acc : JSNum × ℕ) peer =>
      if (if isLocal then peer.1 == myID else !(peer.1 == myID)) then
        match peer.2 with
        | [] => acc
        | v :: vs =>
            let peerSum :=
              (v :: vs).foldl (fun (s : JSNum) e => s.add e.2) (JSNum.fin 0)
            (acc.1.add (peerSum.divNat (v :: vs).length), acc.2 + 1)
      else acc)
    (JSNum.fin 0, 0)
  folded.1.divNat folded.2

/-- `AvgRTPStatsReporter` in its enabled configuration: the ten averages,
the sample counter and the two per-mode monitors. -/
structure AvgRTPStatsReporter where
  n : ℤ
  sampleIdx : ℕ
  avgBitrateUp : AverageStatReport
  avgBitrateDown : AverageStatReport
  avgBandwidthUp : AverageStatReport
  avgBandwidthDown : AverageStatReport
  avgPacketLossTotal : AverageStatReport
  avgPacketLossUp : AverageStatReport
  avgPacketLossDown : AverageStatReport
  avgRemoteFPS : AverageStatReport
  avgLocalFPS : AverageStatReport
  avgCQ : AverageStatReport
  jvbStatsMonitor : ConnectionAvgStats
  p2pStatsMonitor : ConnectionAvgStats
deriving DecidableEq, Repr

/-- The `n > 0` body of the `AvgRTPStatsReporter` constructor. -/
def AvgRTPStatsReporter.init (n : ℤ) : AvgRTPStatsReporter :=
  { n := n, sampleIdx := 0,
    avgBitrateUp := AverageStatReport.mk0 "stat.avg.bitrate.upload",
    avgBitrateDown := AverageStatReport.mk0 "stat.avg.bitrate.download",
    avgBandwidthUp := AverageStatReport.mk0 "stat.avg.bandwidth.upload",
    avgBandwidthDown := AverageStatReport.mk0 "stat.avg.bandwidth.download",
    avgPacketLossTotal := AverageStatReport.mk0 "stat.avg.packetloss.total",
    avgPacketLossUp := AverageStatReport.mk0 "stat.avg.packetloss.upload",
    avgPacketLossDown := AverageStatReport.mk0 "stat.avg.packetloss.download",
    avgRemoteFPS := AverageStatReport.mk0 "stat.avg.framerate.remote",
    avgLocalFPS := AverageStatReport.mk0 "stat.avg.framerate.local",
    avgCQ := AverageStatReport.mk0 "stat.avg.cq",
    jvbStatsMonitor := ConnectionAvgStats.mk0 false n,
    p2pStatsMonitor := ConnectionAvgStats.mk0 true n }

/-- A constructed reporter.  For `n <= 0` the constructor logs and returns
right after storing `_n`, leaving `_conference`, all averages and both
monitors `undefined`. -/
inductive AvgRTPStatsReporterState where
  | disabled (n : ℤ)
  | enabled (r : AvgRTPStatsReporter)
deriving DecidableEq, Repr

/-- The constructor `new AvgRTPStatsReporter(conference, n)`, returning the
state together with the event subscriptions made, in source order (those of
the two `ConnectionAvgStats` sub-constructors included). -/
def mkAvgRTPStatsReporter (n : ℤ) :
    AvgRTPStatsReporterState × List String :=
  if 0 < n then
    (.enabled (AvgRTPStatsReporter.init n),
      ["LOCAL_STATS_UPDATED", "P2P_STATUS", "CONNECTION_STATS jvb",
        "USER_LEFT", "REMOTE_STATS_UPDATED", "CONNECTION_STATS p2p"])
  else (.disabled n, [])

/-- `AvgRTPStatsReporter._resetAvgStats()` (source lines 558-569).  The
source resets nine averages and the sample index; it contains no
`this._avgPacketLossTotal.reset()` call, so that field is carried over
unchanged. -/
def AvgRTPStatsReporter.resetAvgStats (r : AvgRTPStatsReporter) :
    AvgRTPStatsReporter :=
  { r with
    avgBitrateUp := r.avgBitrateUp.reset,
    avgBitrateDown := r.avgBitrateDown.reset,
    avgBandwidthUp := r.avgBandwidthUp.reset,
    avgBandwidthDown := r.avgBandwidthDown.reset,
    avgPacketLossUp := r.avgPacketLossUp.reset,
    avgPacketLossDown := r.avgPacketLossDown.reset,
    avgRemoteFPS := r.avgRemoteFPS.reset,
    avgLocalFPS := r.avgLocalFPS.reset,
    avgCQ := r.avgCQ.reset,
    sampleIdx := 0 }

/-- `_onP2PStatusChanged`: reset own averages, then `_resetAvgStats()` on
both monitors. -/
def AvgRTPStatsReporter.onP2PStatusChanged (r : AvgRTPStatsReporter) :
    AvgRTPStatsReporter :=
  { r.resetAvgStats with
    jvbStatsMonitor := r.jvbStatsMonitor.resetAvgStats,
    p2pStatsMonitor := r.p2pStatsMonitor.resetAvgStats }

/-- `AvgRTPStatsReporter._calculateAvgStats(data)`: one local sample.
Returns the new state and the analytics events sent, in source order.  The
source's `if (frameRate)` re-check is a tautology at that point (the field
was already required), hence not re-modelled. -/
def AvgRTPStatsReporter.calculateAvgStats (ctx : StatsContext)
    (r : AvgRTPStatsReporter) (data : Option LocalStatsData) :
    AvgRTPStatsReporter × List AnalyticsEvent :=
  if ctx.isP2P = false ∧ ctx.peerCount < 1 then (r, [])
  else
    match data with
    | none => (r, [])
    | some d =>
      match d.bitrate, d.bandwidth, d.packetLoss, d.framerate with
      | some bitrate, some bandwidth, some packetLoss, some frameRate =>
        let r1 := { r with
          avgBitrateUp := r.avgBitrateUp.addNext bitrate.upload,
          avgBitrateDown := r.avgBitrateDown.addNext bitrate.download }
        let r2 :=
          if ctx.supportsBandwidthStatistics then
            { r1 with
              avgBandwidthUp := r1.avgBandwidthUp.addNext bandwidth.upload,
              avgBandwidthDown :=
                r1.avgBandwidthDown.addNext bandwidth.download }
          else r1
        let r3 := { r2 with
          avgPacketLossUp := r2.avgPacketLossUp.addNext packetLoss.upload,
          avgPacketLossDown := r2.avgPacketLossDown.addNext packetLoss.download,
          avgPacketLossTotal := r2.avgPacketLossTotal.addNext packetLoss.total,
          avgCQ := r2.avgCQ.addNext d.connectionQuality }
        let r4 := { r3 with
          avgRemoteFPS := r3.avgRemoteFPS.addNext
            (.num (calculateAvgVideoFps ctx.myID frameRate false)),
          avgLocalFPS := r3.avgLocalFPS.addNext
            (.num (calculateAvgVideoFps ctx.myID frameRate true)) }
        let r5 := { r4 with sampleIdx := r4.sampleIdx + 1 }
        if r5.n ≤ (r5.sampleIdx : ℤ) then
          (r5.resetAvgStats,
            [r5.avgBitrateUp.report ctx.isP2P,
              r5.avgBitrateDown.report ctx.isP2P]
              ++ (if ctx.supportsBandwidthStatistics then
                    [r5.avgBandwidthUp.report ctx.isP2P,
                      r5.avgBandwidthDown.report ctx.isP2P]
                  else [])
              ++ [r5.avgPacketLossUp.report ctx.isP2P,
                  r5.avgPacketLossDown.report ctx.isP2P,
                  r5.avgPacketLossTotal.report ctx.isP2P,
                  r5.avgRemoteFPS.report ctx.isP2P,
                  r5.avgLocalFPS.report ctx.isP2P,
                  r5.avgCQ.report ctx.isP2P])
        else (r5, [])
      | _, _, _, _ => (r, [])

/-- The error line logged by `AvgRTPStatsReporter._calculateAvgStats`, if
any, mirroring the source's check order. -/
def AvgRTPStatsReporter.calculateAvgStatsLog (ctx : StatsContext)
    (data : Option LocalStatsData) : Option String :=
  if ctx.isP2P = false ∧ ctx.peerCount < 1 then none
  else
    match data with
    | none => some "No stats"
    | some d =>
      if d.bitrate = none then some "No \"bitrate\""
      else if d.bandwidth = none then some "No \"bandwidth\""
      else if d.packetLoss = none then some "No \"packetloss\""
      else if d.framerate = none then some "No \"framerate\""
      else none

/-- `dispose()`: detaches the subscriptions.  On a disabled instance
`this._conference` was never assigned, so the first statement dereferences
`undefined` and throws a `TypeError`. -/
def AvgRTPStatsReporterState.dispose : AvgRTPStatsReporterState →
    Except String (List String)
  | .disabled _ => .error "TypeError: this._conference is undefined"
  | .enabled _ =>
      .ok ["P2P_STATUS", "LOCAL_STATS_UPDATED", "CONNECTION_STATS jvb",
        "REMOTE_STATS_UPDATED", "USER_LEFT", "CONNECTION_STATS p2p"]

/-- One event delivered by the conference to the reporter's listeners. -/
inductive SessionEvent where
  | localStats (ctx : StatsContext) (data : Option LocalStatsData)
  | connStats (supportsRTT : Bool) (tpcIsP2P : Bool)
      (data : Option ConnStatsData)
  | p2pStatusChanged
  | userLeft (id : String)
  | remoteStatsUpdated (id : String) (data : RemoteStatsData)
deriving DecidableEq, Repr

/-- Dispatch of one event to the listeners registered at construction:
`_onConnectionStats` runs in both monitors, each filtering on
`this.isP2P === tpc.isP2P` (JVB listener first); user-left and remote-stats
updates reach only the JVB monitor. -/
def AvgRTPStatsReporter.step (r : AvgRTPStatsReporter) (e : SessionEvent) :
    AvgRTPStatsReporter × List AnalyticsEvent :=
  match e with
  | .localStats ctx data => r.calculateAvgStats ctx data
  | .connStats s tpc data =>
      let jm :=
        if r.jvbStatsMonitor.isP2P == tpc then
          r.jvbStatsMonitor.calculateAvgStats s data
        else (r.jvbStatsMonitor, [])
      let pm :=
        if r.p2pStatsMonitor.isP2P == tpc then
          r.p2pStatsMonitor.calculateAvgStats s data
        else (r.p2pStatsMonitor, [])
      ({ r with jvbStatsMonitor := jm.1, p2pStatsMonitor := pm.1 },
        jm.2 ++ pm.2)
  | .p2pStatusChanged => (r.onP2PStatusChanged, [])
  | .userLeft id =>
      ({ r with jvbStatsMonitor := r.jvbStatsMonitor.onUserLeft id }, [])
  | .remoteStatsUpdated id data =>
      ({ r with
          jvbStatsMonitor := r.jvbStatsMonitor.processRemoteStats id data },
        [])

/-- Folding a whole event sequence through `step`. -/
def AvgRTPStatsReporter.run (r : AvgRTPStatsReporter)
    (es : List SessionEvent) : AvgRTPStatsReporter :=
  es.foldl (fun st e => (st.step e).1) r

/-- The in-window invariant of a per-mode monitor. -/
def ConnectionAvgStats.idxInv (c : ConnectionAvgStats) : Prop :=
  (c.sampleIdx : ℤ) < c.n

/-- The in-window invariant of the whole reporter. -/
def AvgRTPStatsReporter.idxInv (r : AvgRTPStatsReporter) : Prop :=
  (r.sampleIdx : ℤ) < r.n ∧ r.jvbStatsMonitor.idxInv ∧
    r.p2pStatsMonitor.idxInv

/-- Window sizes held by the reporter and both monitors. -/
def AvgRTPStatsReporter.sizesEq (r : AvgRTPStatsReporter) (n : ℤ) : Prop :=
  r.n = n ∧ r.jvbStatsMonitor.n = n ∧ r.p2pStatsMonitor.n = n

/-- Concrete enabled reporter whose total-packet-loss average holds a
partial accumulation (used against C1 and for C2). -/
def rEx1 : AvgRTPStatsReporter :=
  { AvgRTPStatsReporter.init 5 with
    sampleIdx := 2,
    avgBitrateUp := AverageStatReport.mk "stat.avg.bitrate.upload" 2
      (.fin 300),
    avgPacketLossTotal := AverageStatReport.mk "stat.avg.packetloss.total" 1
      (.fin 5) }

/-- Context: relayed (JVB) mode with zero other participants. -/
def ctxEx2jvb : StatsContext :=
  { supportsBandwidthStatistics := true, isP2P := false, peerCount := 0,
    myID := "me" }

/-- Context: direct (P2P) mode with zero other participants. -/
def ctxEx2 : StatsContext :=
  { supportsBandwidthStatistics := true, isP2P := true, peerCount := 0,
    myID := "me" }

/-- A complete, well-formed local sample. -/
def dEx2 : LocalStatsData :=
  { bitrate := some { upload := .num (.fin 100), download := .num (.fin 200) },
    bandwidth := some { upload := .num (.fin 10), download := .num (.fin 20) },
    packetLoss := some
      { upload := .num (.fin 1), download := .num (.fin 2),
        total := .num (.fin 3) },
    framerate := some [("me", [("ssrc1", .fin 30)])],
    connectionQuality := .num (.fin 90) }

/-- Context: relayed (JVB) mode with participants present. -/
def ctxEx6 : StatsContext :=
  { supportsBandwidthStatistics := true, isP2P := false, peerCount := 2,
    myID := "me" }

/-- A local sample whose `bandwidth` field is missing. -/
def dEx6 : LocalStatsData :=
  { bitrate := some { upload := .num (.fin 100), download := .num (.fin 200) },
    bandwidth := none,
    packetLoss := some
      { upload := .num (.fin 1), download := .num (.fin 2),
        total := .num (.fin 3) },
    framerate := some [],
    connectionQuality := .num (.fin 90) }

/-- A short concrete event sequence exercising every handler once. -/
def esEx10 : List SessionEvent :=
  [SessionEvent.remoteStatsUpdated "alice"
      { jvbRTT := JSVal.num (JSNum.fin 40) },
    SessionEvent.connStats true false
      (some { transport := [JSVal.num (JSNum.fin 50)] }),
    SessionEvent.localStats ctxEx6 (some dEx2),
    SessionEvent.p2pStatusChanged,
    SessionEvent.userLeft "alice"]

/-- `mapGet` on a cons whose head key matches. -/
theorem mapGet_cons_self (e : String × AverageStatReport)
    (m : List (String × AverageStatReport)) (q : String)
    (h : (e.1 == q) = true) : mapGet (e :: m) q = some e.2 := by
  simp [mapGet, List.find?_cons, h]

/-- `mapGet` on a cons whose head key differs. -/
theorem mapGet_cons_other (e : String × AverageStatReport)
    (m : List (String × AverageStatReport)) (q : String)
    (h : (e.1 == q) = false) : mapGet (e :: m) q = mapGet m q := by
  simp [mapGet, List.find?_cons, h]

/-- `Map.delete(p)` leaves no entry for `p`. -/
theorem mapGet_filter_self (m : List (String × AverageStatReport))
    (p : String) :
    mapGet (m.filter (fun e => !(e.1 == p))) p = none := by
  induction m with
  | nil => rfl
  | cons e m ih =>
      by_cases h : e.1 = p
      · rw [List.filter_cons_of_neg (by simp [h])]
        exact ih
      · rw [List.filter_cons_of_pos (by simp [h]),
          mapGet_cons_other e _ p (by simpa using h)]
        exact ih

/-- `Map.delete(p)` does not touch the entry of any other key. -/
theorem mapGet_filter_other (m : List (String × AverageStatReport))
    (p q : String) (hq : q ≠ p) :
    mapGet (m.filter (fun e => !(e.1 == p))) q = mapGet m q := by
  induction m with
  | nil => rfl
  | cons e m ih =>
      by_cases h : e.1 = p
      · have hqe : (e.1 == q) = false := by
          rw [h]
          exact beq_false_of_ne fun hc => hq hc.symm
        rw [List.filter_cons_of_neg (by simp [h]), mapGet_cons_other e _ q hqe]
        exact ih
      · rw [List.filter_cons_of_pos (by simp [h])]
        by_cases hque : e.1 = q
        · rw [mapGet_cons_self e _ q (by simpa using hque),
            mapGet_cons_self e _ q (by simpa using hque)]
        · rw [mapGet_cons_other e _ q (by simpa using hque),
            mapGet_cons_other e _ q (by simpa using hque)]
          exact ih

/-- C8 — A participant-left event for `p` removes exactly `p`'s round-trip
entry: afterwards the map has no entry for `p`, every other participant's
entry is unchanged, and the cross-participant average is computed over
exactly the entries whose key differs from `p`. -/
theorem C8_user_left_removes_exactly_one (c : ConnectionAvgStats)
    (p q : String) (hq : q ≠ p) :
    mapGet (c.onUserLeft p).avgRemoteRTTMap p = none ∧
      mapGet (c.onUserLeft p).avgRemoteRTTMap q = mapGet c.avgRemoteRTTMap q ∧
      ConnectionAvgStats.calculateAvgRemoteRTTval
          (c.onUserLeft p).avgRemoteRTTMap
        = ConnectionAvgStats.calculateAvgRemoteRTTval
            (c.avgRemoteRTTMap.filter (fun e => !(e.1 == p))) :=
  ⟨mapGet_filter_self _ _, mapGet_filter_other _ _ _ hq, rfl⟩

/-- Witness for C8 at a concrete two-participant map, removing "alice". -/
theorem C8_user_left_witness :
    ("bob" ≠ "alice") ∧
      (mapGet (cStatsEx8.onUserLeft "alice").avgRemoteRTTMap "alice" = none ∧
        mapGet (cStatsEx8.onUserLeft "alice").avgRemoteRTTMap "bob"
          = mapGet cStatsEx8.avgRemoteRTTMap "bob" ∧
        ConnectionAvgStats.calculateAvgRemoteRTTval
            (cStatsEx8.onUserLeft "alice").avgRemoteRTTMap
          = ConnectionAvgStats.calculateAvgRemoteRTTval
              (cStatsEx8.avgRemoteRTTMap.filter
                (fun e => !(e.1 == "alice")))) :=
  ⟨by decide, C8_user_left_removes_exactly_one cStatsEx8 "alice" "bob"
    (by decide)⟩

/-- `addNext` never changes the report's name. -/
theorem AverageStatReport.addNext_name (a : AverageStatReport) (v : JSVal) :
    (a.addNext v).name = a.name := by
  cases v <;> rfl

/-- `accumRTT` does not change `isP2P`. -/
theorem ConnectionAvgStats.accumRTT_isP2P (s : Bool) (c : ConnectionAvgStats)
    (d : ConnStatsData) : (c.accumRTT s d).isP2P = c.isP2P := by
  cases s <;> cases h : d.transport <;> simp [ConnectionAvgStats.accumRTT, h]

/-- `accumRTT` does not change `_n`. -/
theorem ConnectionAvgStats.accumRTT_n (s : Bool) (c : ConnectionAvgStats)
    (d : ConnStatsData) : (c.accumRTT s d).n = c.n := by
  cases s <;> cases h : d.transport <;> simp [ConnectionAvgStats.accumRTT, h]

/-- `accumRTT` does not change `_sampleIdx`. -/
theorem ConnectionAvgStats.accumRTT_sampleIdx (s : Bool)
    (c : ConnectionAvgStats) (d : ConnStatsData) :
    (c.accumRTT s d).sampleIdx = c.sampleIdx := by
  cases s <;> cases h : d.transport <;> simp [ConnectionAvgStats.accumRTT, h]

/-- `accumRTT` does not change the remote-RTT map. -/
theorem ConnectionAvgStats.accumRTT_map (s : Bool) (c : ConnectionAvgStats)
    (d : ConnStatsData) :
    (c.accumRTT s d).avgRemoteRTTMap = c.avgRemoteRTTMap := by
  cases s <;> cases h : d.transport <;> simp [ConnectionAvgStats.accumRTT, h]

/-- `accumRTT` does not change the local average's event name. -/
theorem ConnectionAvgStats.accumRTT_avgRTT_name (s : Bool)
    (c : ConnectionAvgStats) (d : ConnStatsData) :
    (c.accumRTT s d).avgRTT.name = c.avgRTT.name := by
  cases s <;> cases h : d.transport <;>
    simp [ConnectionAvgStats.accumRTT, h, AverageStatReport.addNext_name,
      AverageStatReport.reset]

/-- C5 — At a window boundary of the relayed-mode `ConnectionAvgStats` with
RTT statistics supported, the composite end-to-end metric is emitted exactly
when both the freshly accumulated local RTT average and the cross-participant
average are non-NaN, and its value is their sum (the local RTT report itself
always precedes it); the direct-mode instance never emits the composite
metric under any circumstances. -/
theorem C5_end2end_composite :
    (∀ (c : ConnectionAvgStats) (d : ConnStatsData),
        c.isP2P = false →
        c.n ≤ (c.sampleIdx : ℤ) + 1 →
        (c.calculateAvgStats true (some d)).2
          = (if ((c.accumRTT true d).avgRTT.calculate).isNaN = false ∧
                (ConnectionAvgStats.calculateAvgRemoteRTTval
                    c.avgRemoteRTTMap).isNaN = false
             then [(c.accumRTT true d).avgRTT.report false,
                    ⟨"stat.avg.end2endrtt",
                      ((c.accumRTT true d).avgRTT.calculate).add
                        (ConnectionAvgStats.calculateAvgRemoteRTTval
                          c.avgRemoteRTTMap)⟩]
             else [(c.accumRTT true d).avgRTT.report false])) ∧
    (∀ (s : Bool) (c : ConnectionAvgStats) (data : Option ConnStatsData),
        c.isP2P = true → c.avgRTT.name = "stat.avg.rtt" →
        ∀ ev ∈ (c.calculateAvgStats s data).2,
          ev.name ≠ "stat.avg.end2endrtt") := by
  constructor
  · intro c d hP2P hn
    simp only [ConnectionAvgStats.calculateAvgStats,
      ConnectionAvgStats.accumRTT_sampleIdx, ConnectionAvgStats.accumRTT_n,
      ConnectionAvgStats.accumRTT_isP2P, ConnectionAvgStats.accumRTT_map,
      hP2P]
    rw [if_pos (by push_cast; omega), if_pos trivial, if_neg (by simp),
      apply_ite Prod.snd]
  · intro s c data hP2P hname ev hev
    cases data with
    | none => simp [ConnectionAvgStats.calculateAvgStats] at hev
    | some d =>
        simp only [ConnectionAvgStats.calculateAvgStats,
          ConnectionAvgStats.accumRTT_isP2P, hP2P] at hev
        split at hev
        · cases s with
          | false => simp at hev
          | true =>
              rw [if_pos trivial, if_pos rfl] at hev
              simp only [List.mem_singleton] at hev
              subst hev
              simp only [AverageStatReport.report,
                ConnectionAvgStats.accumRTT_avgRTT_name, hname]
              decide
        · simp at hev

/-- Witness for C5: relayed mode, window size 1, local RTT sample 50 and
participant averages 40 and 60 yield an end-to-end emission of 100; the
direct-mode instance at its own boundary emits only the p2p-prefixed RTT
report. -/
theorem C5_end2end_composite_witness :
    (cStatsEx5.isP2P = false ∧ cStatsEx5.n ≤ (cStatsEx5.sampleIdx : ℤ) + 1 ∧
      cStatsEx5p2p.isP2P = true ∧
      cStatsEx5p2p.avgRTT.name = "stat.avg.rtt") ∧
      ((cStatsEx5.calculateAvgStats true (some dStatsEx5)).2
          = (if ((cStatsEx5.accumRTT true dStatsEx5).avgRTT.calculate).isNaN
                  = false ∧
                (ConnectionAvgStats.calculateAvgRemoteRTTval
                    cStatsEx5.avgRemoteRTTMap).isNaN = false
             then [(cStatsEx5.accumRTT true dStatsEx5).avgRTT.report false,
                    ⟨"stat.avg.end2endrtt",
                      ((cStatsEx5.accumRTT true dStatsEx5).avgRTT.calculate).add
                        (ConnectionAvgStats.calculateAvgRemoteRTTval
                          cStatsEx5.avgRemoteRTTMap)⟩]
             else [(cStatsEx5.accumRTT true dStatsEx5).avgRTT.report false]) ∧
        (∀ ev ∈ (cStatsEx5p2p.calculateAvgStats true (some dStatsEx5)).2,
          ev.name ≠ "stat.avg.end2endrtt")) :=
  ⟨⟨rfl, by decide, rfl, rfl⟩,
    C5_end2end_composite.1 cStatsEx5 dStatsEx5 rfl (by decide),
    C5_end2end_composite.2 true cStatsEx5p2p (some dStatsEx5) rfl rfl⟩

/-- C1 — evaluation at the failing input: after a mode-switch event on a
state whose total-packet-loss average holds sum 5 over 1 sample, that
average still holds sum 5 and count 1, because the session-level
`_resetAvgStats` contains no reset of `_avgPacketLossTotal`, while the
sample index and the other averages (upload bitrate shown) are cleared and
nothing is emitted. -/
theorem C1_mode_switch_keeps_packetLossTotal :
    (rEx1.onP2PStatusChanged).avgPacketLossTotal.sum = JSNum.fin 5 ∧
      (rEx1.onP2PStatusChanged).avgPacketLossTotal.count = 1 ∧
      (rEx1.onP2PStatusChanged).sampleIdx = 0 ∧
      (rEx1.onP2PStatusChanged).avgBitrateUp.count = 0 ∧
      (rEx1.onP2PStatusChanged).avgBitrateUp.sum = JSNum.fin 0 := by
  decide

/-- C2 counterexample — in direct (P2P) mode with zero other participants a
local sample is NOT short-circuited: the sample index advances and the
upload-bitrate average accumulates. -/
theorem C2_counterexample_direct_mode_accumulates :
    (AvgRTPStatsReporter.init 5).sampleIdx = 0 ∧
      (AvgRTPStatsReporter.init 5).avgBitrateUp.count = 0 ∧
      ((AvgRTPStatsReporter.init 5).calculateAvgStats ctxEx2
          (some dEx2)).1.sampleIdx = 1 ∧
      ((AvgRTPStatsReporter.init 5).calculateAvgStats ctxEx2
          (some dEx2)).1.avgBitrateUp.count = 1 := by
  decide

/-- C2 (amended) — the short-circuit applies in relayed (JVB) mode with
zero other participants: state unchanged, nothing emitted, nothing
logged. -/
theorem C2_amended_short_circuit (ctx : StatsContext)
    (r : AvgRTPStatsReporter) (data : Option LocalStatsData)
    (hmode : ctx.isP2P = false) (hpeers : ctx.peerCount = 0) :
    r.calculateAvgStats ctx data = (r, []) ∧
      AvgRTPStatsReporter.calculateAvgStatsLog ctx data = none := by
  constructor <;>
    simp [AvgRTPStatsReporter.calculateAvgStats,
      AvgRTPStatsReporter.calculateAvgStatsLog, hmode, hpeers]

/-- Witness for the amended C2 at a concrete JVB-mode, zero-peer context. -/
theorem C2_amended_short_circuit_witness :
    (ctxEx2jvb.isP2P = false ∧ ctxEx2jvb.peerCount = 0) ∧
      (rEx1.calculateAvgStats ctxEx2jvb (some dEx2) = (rEx1, []) ∧
        AvgRTPStatsReporter.calculateAvgStatsLog ctxEx2jvb (some dEx2)
          = none) :=
  ⟨⟨rfl, rfl⟩, C2_amended_short_circuit ctxEx2jvb rEx1 (some dEx2) rfl rfl⟩

/-- C3 counterexample — `dispose()` on a reporter constructed with window
size 0 is not an error-free no-op: it fails (modelled as `Except.error`)
because `this._conference` was never initialized. -/
theorem C3_counterexample_dispose_fails :
    (mkAvgRTPStatsReporter 0).1.dispose
      = Except.error "TypeError: this._conference is undefined" := by
  rfl

/-- C3 (amended) — for every n ≤ 0 construction makes no subscriptions and
creates no sub-aggregators (the state is the bare disabled record, so no
event handler can ever be invoked), but `dispose()` is not a safe no-op:
it raises a TypeError on the uninitialized conference field. -/
theorem C3_amended_disabled (n : ℤ) (hn : n ≤ 0) :
    mkAvgRTPStatsReporter n = (.disabled n, []) ∧
      (mkAvgRTPStatsReporter n).1.dispose
        = Except.error "TypeError: this._conference is undefined" := by
  have h0 : ¬(0 < n) := by omega
  refine ⟨by simp [mkAvgRTPStatsReporter, h0], ?_⟩
  simp [mkAvgRTPStatsReporter, h0, AvgRTPStatsReporterState.dispose]

/-- Witness for the amended C3 at n = 0. -/
theorem C3_amended_disabled_witness :
    ((0 : ℤ) ≤ 0) ∧
      (mkAvgRTPStatsReporter 0 = (.disabled 0, []) ∧
        (mkAvgRTPStatsReporter 0).1.dispose
          = Except.error "TypeError: this._conference is undefined") :=
  ⟨by decide, C3_amended_disabled 0 (by decide)⟩

/-- C6 — a local sample missing any of the four required top-level fields
is dropped atomically: the state is unchanged (no average touched, sample
index not incremented) and nothing is emitted; whenever the handler gets
past the conference-of-one short-circuit, an error line is logged.  Later
samples are unaffected since the state is exactly the input state. -/
theorem C6_missing_field_drops_sample (ctx : StatsContext)
    (r : AvgRTPStatsReporter) (d : LocalStatsData)
    (hmiss : d.bitrate = none ∨ d.bandwidth = none ∨ d.packetLoss = none ∨
      d.framerate = none) :
    r.calculateAvgStats ctx (some d) = (r, []) ∧
      (¬(ctx.isP2P = false ∧ ctx.peerCount < 1) →
        (AvgRTPStatsReporter.calculateAvgStatsLog ctx (some d)).isSome
          = true) := by
  obtain ⟨b, bw, pl, fr, cq⟩ := d
  constructor
  · by_cases hsc : ctx.isP2P = false ∧ ctx.peerCount < 1
    · simp [AvgRTPStatsReporter.calculateAvgStats, hsc]
    · cases b <;> cases bw <;> cases pl <;> cases fr <;>
        simp_all [AvgRTPStatsReporter.calculateAvgStats]
  · intro hsc
    cases b <;> cases bw <;> cases pl <;> cases fr <;>
      simp_all [AvgRTPStatsReporter.calculateAvgStatsLog]

/-- Witness for C6: relayed mode with two peers, sample missing
`bandwidth`. -/
theorem C6_missing_field_drops_sample_witness :
    (dEx6.bitrate = none ∨ dEx6.bandwidth = none ∨ dEx6.packetLoss = none ∨
        dEx6.framerate = none) ∧
      (rEx1.calculateAvgStats ctxEx6 (some dEx6) = (rEx1, []) ∧
        (¬(ctxEx6.isP2P = false ∧ ctxEx6.peerCount < 1) →
          (AvgRTPStatsReporter.calculateAvgStatsLog ctxEx6
              (some dEx6)).isSome = true)) :=
  ⟨by decide, C6_missing_field_drops_sample ctxEx6 rEx1 dEx6 (by decide)⟩

/-- A monitor sample keeps `_n` unchanged. -/
theorem ConnectionAvgStats.calculateAvgStats_n (s : Bool)
    (c : ConnectionAvgStats) (data : Option ConnStatsData) :
    (c.calculateAvgStats s data).1.n = c.n := by
  cases data with
  | none => rfl
  | some d =>
      simp only [ConnectionAvgStats.calculateAvgStats]
      repeat' split
      all_goals
        simp [ConnectionAvgStats.resetAvgStats, ConnectionAvgStats.accumRTT_n]

/-- A monitor sample keeps the sample index inside an `n ≥ 1` window. -/
theorem ConnectionAvgStats.calculateAvgStats_idx (s : Bool)
    (c : ConnectionAvgStats) (data : Option ConnStatsData) (hn : 1 ≤ c.n)
    (h : (c.sampleIdx : ℤ) < c.n) :
    ((c.calculateAvgStats s data).1.sampleIdx : ℤ) < c.n := by
  cases data with
  | none => exact h
  | some d =>
      simp only [ConnectionAvgStats.calculateAvgStats]
      repeat' split
      all_goals
        try simp_all [ConnectionAvgStats.resetAvgStats,
          ConnectionAvgStats.accumRTT_n, ConnectionAvgStats.accumRTT_sampleIdx]
      all_goals omega

/-- `_processRemoteStats` touches neither the sample index nor `_n`. -/
theorem ConnectionAvgStats.processRemoteStats_frame (c : ConnectionAvgStats)
    (id : String) (data : RemoteStatsData) :
    (c.processRemoteStats id data).sampleIdx = c.sampleIdx ∧
      (c.processRemoteStats id data).n = c.n := by
  unfold ConnectionAvgStats.processRemoteStats
  repeat' split
  all_goals simp

/-- A session sample leaves monitors and `_n` untouched. -/
theorem AvgRTPStatsReporter.calculateAvgStats_frame (ctx : StatsContext)
    (r : AvgRTPStatsReporter) (data : Option LocalStatsData) :
    (r.calculateAvgStats ctx data).1.jvbStatsMonitor = r.jvbStatsMonitor ∧
      (r.calculateAvgStats ctx data).1.p2pStatsMonitor = r.p2pStatsMonitor ∧
      (r.calculateAvgStats ctx data).1.n = r.n := by
  simp only [AvgRTPStatsReporter.calculateAvgStats]
  repeat' split
  all_goals simp [AvgRTPStatsReporter.resetAvgStats]

/-- A session sample keeps the sample index inside an `n ≥ 1` window. -/
theorem AvgRTPStatsReporter.calculateAvgStats_sampleIdx_lt (ctx : StatsContext)
    (r : AvgRTPStatsReporter) (data : Option LocalStatsData) (hn : 1 ≤ r.n)
    (h : (r.sampleIdx : ℤ) < r.n) :
    ((r.calculateAvgStats ctx data).1.sampleIdx : ℤ) < r.n := by
  simp only [AvgRTPStatsReporter.calculateAvgStats]
  repeat' split
  all_goals try simp_all [AvgRTPStatsReporter.resetAvgStats]
  all_goals omega

/-- The connection-stats listener branch keeps `_n`. -/
theorem connStats_branch_n (c : ConnectionAvgStats) (s tpc : Bool)
    (data : Option ConnStatsData) :
    (if c.isP2P == tpc then c.calculateAvgStats s data
      else (c, [])).1.n = c.n := by
  split
  · exact ConnectionAvgStats.calculateAvgStats_n s c data
  · rfl

/-- The connection-stats listener branch keeps the index in the window. -/
theorem connStats_branch_idx (c : ConnectionAvgStats) (s tpc : Bool)
    (data : Option ConnStatsData) (hn : 1 ≤ c.n)
    (h : (c.sampleIdx : ℤ) < c.n) :
    ((if c.isP2P == tpc then c.calculateAvgStats s data
      else (c, [])).1.sampleIdx : ℤ) < c.n := by
  split
  · exact ConnectionAvgStats.calculateAvgStats_idx s c data hn h
  · exact h

/-- One dispatched event preserves the window sizes and the in-window
invariant (for windows of size at least 1). -/
theorem AvgRTPStatsReporter.step_preserves (r : AvgRTPStatsReporter)
    (e : SessionEvent) (n : ℤ) (hn : 1 ≤ n) (hs : r.sizesEq n)
    (hi : r.idxInv) : (r.step e).1.sizesEq n ∧ (r.step e).1.idxInv := by
  obtain ⟨h1, h2, h3⟩ := hs
  obtain ⟨g1, g2, g3⟩ := hi
  cases e with
  | localStats ctx data =>
      obtain ⟨hm1, hm2, hmn⟩ :=
        AvgRTPStatsReporter.calculateAvgStats_frame ctx r data
      have hx := AvgRTPStatsReporter.calculateAvgStats_sampleIdx_lt ctx r data
        (by omega) g1
      refine ⟨⟨?_, ?_, ?_⟩, ?_, ?_, ?_⟩
      · show (r.calculateAvgStats ctx data).1.n = n
        rw [hmn, h1]
      · show (r.calculateAvgStats ctx data).1.jvbStatsMonitor.n = n
        rw [hm1, h2]
      · show (r.calculateAvgStats ctx data).1.p2pStatsMonitor.n = n
        rw [hm2, h3]
      · show ((r.calculateAvgStats ctx data).1.sampleIdx : ℤ)
            < (r.calculateAvgStats ctx data).1.n
        rw [hmn]
        exact hx
      · show ConnectionAvgStats.idxInv
            (r.calculateAvgStats ctx data).1.jvbStatsMonitor
        rw [hm1]
        exact g2
      · show ConnectionAvgStats.idxInv
            (r.calculateAvgStats ctx data).1.p2pStatsMonitor
        rw [hm2]
        exact g3
  | connStats s tpc data =>
      refine ⟨⟨h1, ?_, ?_⟩, g1, ?_, ?_⟩
      · show (if r.jvbStatsMonitor.isP2P == tpc then
            r.jvbStatsMonitor.calculateAvgStats s data
          else (r.jvbStatsMonitor, [])).1.n = n
        rw [connStats_branch_n, h2]
      · show (if r.p2pStatsMonitor.isP2P == tpc then
            r.p2pStatsMonitor.calculateAvgStats s data
          else (r.p2pStatsMonitor, [])).1.n = n
        rw [connStats_branch_n, h3]
      · show ConnectionAvgStats.idxInv
          (if r.jvbStatsMonitor.isP2P == tpc then
            r.jvbStatsMonitor.calculateAvgStats s data
          else (r.jvbStatsMonitor, [])).1
        unfold ConnectionAvgStats.idxInv
        rw [connStats_branch_n]
        exact connStats_branch_idx _ s tpc data (by omega) g2
      · show ConnectionAvgStats.idxInv
          (if r.p2pStatsMonitor.isP2P == tpc then
            r.p2pStatsMonitor.calculateAvgStats s data
          else (r.p2pStatsMonitor, [])).1
        unfold ConnectionAvgStats.idxInv
        rw [connStats_branch_n]
        exact connStats_branch_idx _ s tpc data (by omega) g3
  | p2pStatusChanged =>
      refine ⟨⟨h1, h2, h3⟩, ?_, ?_, ?_⟩
      · show (((0 : ℕ) : ℤ)) < r.n
        omega
      · show (((0 : ℕ) : ℤ)) < r.jvbStatsMonitor.n
        omega
      · show (((0 : ℕ) : ℤ)) < r.p2pStatsMonitor.n
        omega
  | userLeft id => exact ⟨⟨h1, h2, h3⟩, g1, g2, g3⟩
  | remoteStatsUpdated id data =>
      obtain ⟨hpi, hpn⟩ :=
        ConnectionAvgStats.processRemoteStats_frame r.jvbStatsMonitor id data
      refine ⟨⟨h1, ?_, h3⟩, g1, ?_, g3⟩
      · show (r.jvbStatsMonitor.processRemoteStats id data).n = n
        rw [hpn, h2]
      · show ((r.jvbStatsMonitor.processRemoteStats id data).sampleIdx : ℤ)
            < (r.jvbStatsMonitor.processRemoteStats id data).n
        rw [hpn, hpi]
        exact g2

/-- Running any event sequence preserves sizes and the invariant. -/
theorem AvgRTPStatsReporter.run_good (n : ℤ) (hn : 1 ≤ n)
    (r : AvgRTPStatsReporter) (hs : r.sizesEq n) (hi : r.idxInv)
    (es : List SessionEvent) :
    (r.run es).sizesEq n ∧ (r.run es).idxInv := by
  induction es generalizing r with
  | nil => exact ⟨hs, hi⟩
  | cons e es ih =>
      have hstep := AvgRTPStatsReporter.step_preserves r e n hn hs hi
      exact ih _ hstep.1 hstep.2

/-- C10 — for every window size n ≥ 1 and every sequence of delivered
events, after each handler completes the sample index of the session
aggregator and of both per-mode aggregators lies in [0, n); the sample
counts are nonnegative by construction (they live in ℕ). -/
theorem C10_sampleIdx_within_window (n : ℤ) (hn : 1 ≤ n)
    (es : List SessionEvent) :
    (0 ≤ ((AvgRTPStatsReporter.init n).run es).sampleIdx ∧
        ((((AvgRTPStatsReporter.init n).run es).sampleIdx : ℕ) : ℤ) < n) ∧
      (0 ≤ ((AvgRTPStatsReporter.init n).run es).jvbStatsMonitor.sampleIdx ∧
        ((((AvgRTPStatsReporter.init n).run
            es).jvbStatsMonitor.sampleIdx : ℕ) : ℤ) < n) ∧
      (0 ≤ ((AvgRTPStatsReporter.init n).run es).p2pStatsMonitor.sampleIdx ∧
        ((((AvgRTPStatsReporter.init n).run
            es).p2pStatsMonitor.sampleIdx : ℕ) : ℤ) < n) := by
  have h := AvgRTPStatsReporter.run_good n hn (AvgRTPStatsReporter.init n)
    ⟨rfl, rfl, rfl⟩
    ⟨show (((0 : ℕ) : ℤ)) < n by omega,
      show (((0 : ℕ) : ℤ)) < n by omega,
      show (((0 : ℕ) : ℤ)) < n by omega⟩ es
  obtain ⟨⟨s1, s2, s3⟩, i1, i2, i3⟩ := h
  have i1h : (((AvgRTPStatsReporter.init n).run es).sampleIdx : ℤ)
      < ((AvgRTPStatsReporter.init n).run es).n := i1
  have i2h : (((AvgRTPStatsReporter.init n).run
        es).jvbStatsMonitor.sampleIdx : ℤ)
      < ((AvgRTPStatsReporter.init n).run es).jvbStatsMonitor.n := i2
  have i3h : (((AvgRTPStatsReporter.init n).run
        es).p2pStatsMonitor.sampleIdx : ℤ)
      < ((AvgRTPStatsReporter.init n).run es).p2pStatsMonitor.n := i3
  exact ⟨⟨Nat.zero_le _, by omega⟩, ⟨Nat.zero_le _, by omega⟩,
    ⟨Nat.zero_le _, by omega⟩⟩

/-- Witness for C10 at window size 2 and a concrete five-event sequence
exercising every handler. -/
theorem C10_sampleIdx_within_window_witness :
    ((1 : ℤ) ≤ 2) ∧
      ((0 ≤ ((AvgRTPStatsReporter.init 2).run esEx10).sampleIdx ∧
          ((((AvgRTPStatsReporter.init 2).run esEx10).sampleIdx : ℕ) : ℤ)
            < 2) ∧
        (0 ≤ ((AvgRTPStatsReporter.init 2).run
              esEx10).jvbStatsMonitor.sampleIdx ∧
          ((((AvgRTPStatsReporter.init 2).run
              esEx10).jvbStatsMonitor.sampleIdx : ℕ) : ℤ) < 2) ∧
        (0 ≤ ((AvgRTPStatsReporter.init 2).run
              esEx10).p2pStatsMonitor.sampleIdx ∧
          ((((AvgRTPStatsReporter.init 2).run
              esEx10).p2pStatsMonitor.sampleIdx : ℕ) : ℤ) < 2)) :=
  ⟨by decide, C10_sampleIdx_within_window 2 (by decide) esEx10⟩
